import Mathlib

/-!
Verification development for the spaced-repetition scheduling engine.

The Python source is shallowly embedded: floats become exact rationals (ℚ),
Python `int` becomes ℤ, `datetime` timestamps become an abstract integer
time (in days, matching `timedelta(days=interval)` arithmetic), mutation of
the `UserProgress` entity becomes a function returning the updated record,
exceptions become `Except` errors, and the SQL-backed repositories become
functions over explicit row lists (rows in underlying table order, since the
queries specify no `ORDER BY`).
-/

namespace SpacedRepetition

/-- Timestamps: abstract integer time measured in days.
`now + timedelta(days=interval)` becomes `now + interval`. -/
abbrev Timestamp := Int

/-- `Word` entity (`src/domain/entities/word.py`): id, text, frequency rank,
difficulty level.  The two value objects are carried as their raw integer
values; their constructor validation is stated as hypotheses where claims
need it. -/
structure Word where
  id : Option Int
  word : String
  frequency_rank : Int
  difficulty_level : Int
deriving DecidableEq, Repr

/-- `UserProgress` entity (`src/domain/entities/word.py`): the per
(user, word) retention state of the SM-2 scheduler. -/
structure UserProgress where
  id : Option Int
  user_id : String
  word_id : Int
  repetitions : Int := 0
  ease_factor : ℚ := 2.5
  interval : Int := 1
  next_review : Option Timestamp := none
  last_review : Option Timestamp := none
deriving DecidableEq, Repr

/-- `StudySession` entity (`src/domain/entities/word.py`): an immutable
audit record of one answered review. -/
structure StudySession where
  id : Option Int
  word_id : Int
  user_id : String
  correct : Bool
  response_time : ℚ
  timestamp : Option Timestamp
  quality : Int
deriving DecidableEq, Repr

/-- Domain events (`src/domain/events/study_events.py`) emitted by
`UserProgress.update_progress`.  The `timestamp` field defaulting to
`datetime.now()` is presentation metadata and not part of any claim, so the
payload fields are modelled. -/
inductive DomainEvent where
  | studySessionCompleted (user_id : String) (word_id : Int) (quality : Int)
      (repetitions : Int) (ease_factor : ℚ)
  | wordLearned (user_id : String) (word_id : Int)
deriving DecidableEq, Repr

/-- Python `int(x)` on a float: truncation toward zero. -/
def pyInt (q : ℚ) : Int :=
  if 0 ≤ q then ⌊q⌋ else ⌈q⌉

/-- `UserProgress.update_progress` (`src/domain/entities/word.py`, lines
49–92), as a pure transition: given the prior state, the quality value of
the `Quality` value object, and the current time, produce the updated
state and the emitted event list.  Field-for-field translation:
incorrect answers (`quality < 3`) reset `repetitions` and `interval`;
correct answers increment `repetitions`, choose the new `interval` from the
new repetition count using the pre-update `ease_factor`
(`int(self.interval * self.ease_factor)`), and only then recompute
`ease_factor`; dates are updated; a `StudySessionCompleted` event is always
appended and a `WordLearned` event is appended when
`repetitions == 1 and quality >= 3`. -/
def update_progress (p : UserProgress) (quality : Int) (now : Timestamp) :
    UserProgress × List DomainEvent :=
  let p1 : UserProgress :=
    if quality < 3 then
      { p with repetitions := 0, interval := 1 }
    else
      let reps := p.repetitions + 1
      let newInterval : Int :=
        if reps = 1 then 1
        else if reps = 2 then 6
        else pyInt ((p.interval : ℚ) * p.ease_factor)
      let newEase : ℚ :=
        max 1.3 (p.ease_factor +
          (0.1 - (5 - (quality : ℚ)) * (0.08 + (5 - (quality : ℚ)) * 0.02)))
      { p with repetitions := reps, interval := newInterval, ease_factor := newEase }
  let p2 : UserProgress :=
    { p1 with next_review := some (now + p1.interval), last_review := some now }
  let events : List DomainEvent :=
    [.studySessionCompleted p2.user_id p2.word_id quality p2.repetitions p2.ease_factor]
  let events :=
    if p2.repetitions = 1 ∧ 3 ≤ quality then
      events ++ [.wordLearned p2.user_id p2.word_id]
    else events
  (p2, events)

/-! ## Study-block assembly (`GenerateStudyBlockCommandHandler.handle`) -/

/-- Error raised by `GenerateStudyBlockCommandHandler` when the assembled
block is empty (`NoWordsAvailableException(user_id)`). -/
inductive GenerateBlockError where
  | noWordsAvailable (user_id : String)
deriving DecidableEq, Repr

/-- The word-list computation of `GenerateStudyBlockCommandHandler.handle`
(`src/application/handlers/command_handlers.py`, lines 125–138): start from
the due-for-review words; if they number fewer than `limit`, extend with the
new words the word repository returned for the shortfall request; then
truncate to `limit`.  `due` and `newWords` are the lists the two repository
ports returned. -/
def assembleBlock (due newWords : List Word) (limit : Nat) : List Word :=
  (if due.length < limit then due ++ newWords else due).take limit

/-- `GenerateStudyBlockCommandHandler.handle`, projected onto the claims'
scope: the assembled word list, or `NoWordsAvailableException` when it is
empty.  The block id (a `user_id`/timestamp string), `created_at`, and the
difficulty histogram computed afterwards are presentation fields outside
every claim and are not modelled. -/
def generateStudyBlock (user_id : String) (due newWords : List Word)
    (limit : Nat) : Except GenerateBlockError (List Word) :=
  let words := assembleBlock due newWords limit
  if words.isEmpty then .error (.noWordsAvailable user_id) else .ok words

/-! ## The due-for-review repository query
(`SQLAlchemyUserProgressRepository.find_words_due_for_review`) -/

/-- One row of the `words ⋈ user_progress` join the query ranges over. -/
structure ReviewRow where
  word : Word
  progress : UserProgress
deriving DecidableEq, Repr

/-- The SQL predicate `UserProgressModel.next_review <= now`: false on a
NULL `next_review` (unlike the entity method `is_due_for_review`, which
treats a missing date as due). -/
def nextReviewLe (nr : Option Timestamp) (now : Timestamp) : Bool :=
  match nr with
  | none => false
  | some t => t ≤ now

/-- `SQLAlchemyUserProgressRepository.find_words_due_for_review`
(`src/infrastructure/repositories/sqlalchemy_repositories.py`, lines
116–126): filter the join on the user id and `next_review <= now`, apply
`LIMIT`, and map each row to its word.  The query has no `ORDER BY`, so the
rows come back in the engine's underlying row order, modelled here as the
order of `db`. -/
def find_words_due_for_review (db : List ReviewRow) (user_id : String)
    (limit : Nat) (now : Timestamp) : List Word :=
  (((db.filter fun r =>
      r.progress.user_id == user_id && nextReviewLe r.progress.next_review now).take
    limit).map fun r => r.word)

/-- Modelled from the spec: the ordering the spec requires of the due-set —
due date (`nextReviewAt`) ascending, ties broken by item id ascending.
Used only to compare the implementation's query against the spec's words;
the implementation applies no ordering. -/
def rowDueLe (r₁ r₂ : ReviewRow) : Bool :=
  let d₁ := r₁.progress.next_review.getD 0
  let d₂ := r₂.progress.next_review.getD 0
  d₁ < d₂ || (d₁ == d₂ && r₁.word.id.getD 0 ≤ r₂.word.id.getD 0)

/-- Insertion step of the spec-side sort. -/
def insertByDue (r : ReviewRow) : List ReviewRow → List ReviewRow
  | [] => [r]
  | x :: xs => if rowDueLe r x then r :: x :: xs else x :: insertByDue r xs

/-- Insertion sort by `rowDueLe` for the spec-side ordering. -/
def sortByDue : List ReviewRow → List ReviewRow
  | [] => []
  | x :: xs => insertByDue x (sortByDue xs)

/-- Modelled from the spec: `find_words_due_for_review` as the spec
describes it — the matching rows ordered by due date ascending (ties by item
id ascending) before the limit is applied. -/
def find_words_due_for_review_spec (db : List ReviewRow) (user_id : String)
    (limit : Nat) (now : Timestamp) : List Word :=
  (((sortByDue (db.filter fun r =>
      r.progress.user_id == user_id && nextReviewLe r.progress.next_review now)).take
    limit).map fun r => r.word)

/-! ## CQRS mediator (`src/application/mediator.py`) -/

/-- `ValueError(f"No handler registered for ... {type}")`, the failure of
`send_command`/`send_query` when the request's runtime type has no
registered handler.  `κ` stands for the runtime type used as the
dictionary key. -/
inductive DispatchError (κ : Type) where
  | unregisteredHandler (requestType : κ)
deriving DecidableEq

/-- `CQRSMediator`'s state: its two handler dictionaries, keyed by the
request's runtime type (`κ`).  A Python `dict` is modelled as a partial
function; `Cmd`/`Qry` are the request instances, `Res` the handler result
type (`Any` in the source). -/
structure CQRSMediator (κ Cmd Qry Res : Type) where
  command_handlers : κ → Option (Cmd → Res)
  query_handlers : κ → Option (Qry → Res)

/-- `CQRSMediator.__init__`: both dictionaries empty. -/
def CQRSMediator.empty (κ Cmd Qry Res : Type) : CQRSMediator κ Cmd Qry Res :=
  { command_handlers := fun _ => none, query_handlers := fun _ => none }

/-- `CQRSMediator.register_command_handler`: `dict[command_type] = handler`,
silently overwriting any prior entry for that type. -/
def CQRSMediator.register_command_handler [DecidableEq κ]
    (m : CQRSMediator κ Cmd Qry Res) (command_type : κ) (handler : Cmd → Res) :
    CQRSMediator κ Cmd Qry Res :=
  { m with command_handlers := fun k =>
      if k = command_type then some handler else m.command_handlers k }

/-- `CQRSMediator.register_query_handler`: `dict[query_type] = handler`. -/
def CQRSMediator.register_query_handler [DecidableEq κ]
    (m : CQRSMediator κ Cmd Qry Res) (query_type : κ) (handler : Qry → Res) :
    CQRSMediator κ Cmd Qry Res :=
  { m with query_handlers := fun k =>
      if k = query_type then some handler else m.query_handlers k }

/-- `CQRSMediator.send_command`: look up the handler under the command's
runtime type (`typeOf`, Python's `type(command)`) and return
`handler.handle(command)`, or raise if none is registered.  The second
component records the handler invocations performed (the argument of each
`handle` call), so that "invoked exactly once with the submitted instance"
and "no handler invoked" are statable. -/
def CQRSMediator.send_command (m : CQRSMediator κ Cmd Qry Res)
    (typeOf : Cmd → κ) (command : Cmd) :
    Except (DispatchError κ) Res × List Cmd :=
  match m.command_handlers (typeOf command) with
  | none => (.error (.unregisteredHandler (typeOf command)), [])
  | some handler => (.ok (handler command), [command])

/-- `CQRSMediator.send_query`: the query-side twin of `send_command`. -/
def CQRSMediator.send_query (m : CQRSMediator κ Cmd Qry Res)
    (typeOf : Qry → κ) (query : Qry) :
    Except (DispatchError κ) Res × List Qry :=
  match m.query_handlers (typeOf query) with
  | none => (.error (.unregisteredHandler (typeOf query)), [])
  | some handler => (.ok (handler query), [query])

/-! ## Submit-answer command handler
(`SubmitAnswerCommandHandler.handle`, `src/application/handlers/command_handlers.py`) -/

/-- `StudySessionDto`: the payload of `SubmitAnswerCommand`. -/
structure StudySessionDto where
  user_id : String
  word_id : Int
  quality : Int
  response_time : ℚ
deriving DecidableEq, Repr

/-- `StudySessionResponseDto` returned by `SubmitAnswerCommandHandler`. -/
structure StudySessionResponseDto where
  message : String
  word_id : Int
  quality : Int
  next_review : Option Timestamp
  repetitions : Int
  ease_factor : ℚ
  interval_days : Int
deriving DecidableEq, Repr

/-- The domain exceptions `SubmitAnswerCommandHandler.handle` can raise
(`src/shared/exceptions/domain_exceptions.py`), each carrying the datum the
source passes to the exception constructor. -/
inductive SubmitAnswerError where
  | invalidQuality (quality : Int)
  | invalidResponseTime (response_time : ℚ)
  | wordNotFound (word_id : Int)
deriving DecidableEq, Repr

/-- The repositories the handler touches, as explicit row lists:
the word table, the user-progress table, and the append-only study-session
table. -/
structure RepositoryState where
  words : List Word
  progresses : List UserProgress
  sessions : List StudySession
deriving DecidableEq, Repr

/-- `SQLAlchemyWordRepository.find_by_id`: first word whose id matches. -/
def find_by_id (words : List Word) (word_id : Int) : Option Word :=
  words.find? fun w => w.id == some word_id

/-- `SQLAlchemyUserProgressRepository.find_by_user_and_word`: first progress
row matching both the user id and the word id. -/
def find_by_user_and_word (progresses : List UserProgress) (user_id : String)
    (word_id : Int) : Option UserProgress :=
  progresses.find? fun p => p.user_id == user_id && p.word_id == word_id

/-- `SQLAlchemyUserProgressRepository.save`: a progress entity without an id
is inserted as a new row; one with an id updates the mutable columns of the
row carrying that id. -/
def save_progress (progresses : List UserProgress) (p : UserProgress) :
    List UserProgress :=
  match p.id with
  | none => progresses ++ [p]
  | some _ => progresses.map fun row =>
      if row.id == p.id then
        { row with repetitions := p.repetitions, ease_factor := p.ease_factor,
                   interval := p.interval, next_review := p.next_review,
                   last_review := p.last_review }
      else row

/-- `SubmitAnswerCommandHandler.handle`
(`src/application/handlers/command_handlers.py`, lines 42–91), as a
transition on the repository state: validate the quality range, then the
response time, then look up the word; on success, load or default-construct
the progress row, run the SM-2 transition, persist the progress, append the
study-session record (with `correct = quality.is_correct()` and
`timestamp = progress.last_review`), and return the response DTO.  Each
validation failure raises before any repository write. -/
def submitAnswerHandler (st : RepositoryState) (sd : StudySessionDto)
    (now : Timestamp) :
    Except SubmitAnswerError (RepositoryState × StudySessionResponseDto) :=
  if sd.quality < 0 ∨ 5 < sd.quality then
    .error (.invalidQuality sd.quality)
  else if sd.response_time < 0 then
    .error (.invalidResponseTime sd.response_time)
  else
    match find_by_id st.words sd.word_id with
    | none => .error (.wordNotFound sd.word_id)
    | some _ =>
      let progress :=
        (find_by_user_and_word st.progresses sd.user_id sd.word_id).getD
          { id := none, user_id := sd.user_id, word_id := sd.word_id,
            next_review := none }
      let result := update_progress progress sd.quality now
      let progress' := result.1
      let session : StudySession :=
        { id := none, word_id := sd.word_id, user_id := sd.user_id,
          correct := decide (3 ≤ sd.quality), response_time := sd.response_time,
          timestamp := progress'.last_review, quality := sd.quality }
      .ok ({ st with progresses := save_progress st.progresses progress',
                     sessions := st.sessions ++ [session] },
           { message := "Respuesta registrada exitosamente",
             word_id := sd.word_id, quality := sd.quality,
             next_review := progress'.next_review,
             repetitions := progress'.repetitions,
             ease_factor := progress'.ease_factor,
             interval_days := progress'.interval })

/-- The repository state after a `SubmitAnswer` request: the handler's
updated state on success; the prior state when an exception was raised
(an uncaught exception leaves the repositories untouched, since all three
validations precede every write). -/
def runSubmitAnswer (st : RepositoryState) (sd : StudySessionDto)
    (now : Timestamp) : RepositoryState :=
  match submitAnswerHandler st sd now with
  | .error _ => st
  | .ok (st', _) => st'

/-! ## Concrete fixtures used by witnesses and counterexamples -/

/-- A fresh retention state with the entity's defaults
(`repetitions = 0`, `ease_factor = 2.5`, `interval = 1`, no dates). -/
def progressExample : UserProgress :=
  { id := none, user_id := "user123", word_id := 1 }

/-! ## Claims about the SM-2 transition -/

/-- C1: for every prior state (with the data model's invariants
`intervalDays ≥ 1` and `easeFactor ≥ 1.3`) and every quality, the
transition resets `repetitions` to 0 and `intervalDays` to 1 when
`quality < 3`; otherwise it increments `repetitions` and sets
`intervalDays` to 1, 6, or `⌊intervalDays_old · easeFactor_old⌋` according
to the new repetition count, the floor being taken of the product with the
pre-update ease factor. -/
theorem update_progress_repetitions_interval (p : UserProgress) (quality : Int)
    (now : Timestamp) (hI : 1 ≤ p.interval) (hE : (1.3 : ℚ) ≤ p.ease_factor) :
    (quality < 3 →
      (update_progress p quality now).1.repetitions = 0 ∧
      (update_progress p quality now).1.interval = 1) ∧
    (3 ≤ quality →
      (update_progress p quality now).1.repetitions = p.repetitions + 1 ∧
      (update_progress p quality now).1.interval =
        (if p.repetitions + 1 = 1 then 1
         else if p.repetitions + 1 = 2 then 6
         else ⌊(p.interval : ℚ) * p.ease_factor⌋)) := by
  constructor
  · intro h
    simp [update_progress, h]
  · intro h
    have h3 : ¬ quality < 3 := by omega
    have hprod : (0 : ℚ) ≤ (p.interval : ℚ) * p.ease_factor := by
      have h1 : (1 : ℚ) ≤ (p.interval : ℚ) := by exact_mod_cast hI
      nlinarith
    simp [update_progress, h3, pyInt, hprod]

/-- Witness for C1 at the default fresh state and quality 4. -/
theorem update_progress_repetitions_interval_witness :
    (update_progress progressExample 4 0).1.repetitions =
      progressExample.repetitions + 1 ∧
    (update_progress progressExample 4 0).1.interval =
      (if progressExample.repetitions + 1 = 1 then 1
       else if progressExample.repetitions + 1 = 2 then 6
       else ⌊(progressExample.interval : ℚ) * progressExample.ease_factor⌋) :=
  (update_progress_repetitions_interval progressExample 4 0
    (by norm_num [progressExample]) (by norm_num [progressExample])).2
    (by norm_num)

/-- Shared helper: the ease factor after the transition, in closed form.
The SM-2 recomputation happens only in the correct-answer branch
(`quality ≥ 3`); an incorrect answer leaves the ease factor untouched. -/
lemma update_progress_easeFactor (p : UserProgress) (quality : Int)
    (now : Timestamp) :
    (update_progress p quality now).1.ease_factor =
      if 3 ≤ quality then
        max 1.3 (p.ease_factor +
          (0.1 - (5 - (quality : ℚ)) * (0.08 + (5 - (quality : ℚ)) * 0.02)))
      else p.ease_factor := by
  by_cases h : quality < 3
  · have h' : ¬ 3 ≤ quality := by omega
    simp [update_progress, h, h']
  · have h' : 3 ≤ quality := by omega
    simp [update_progress, h, h']

/-- C2 counterexample: at the fresh default state and quality 0, the code
leaves the ease factor at 2.5, while the claimed always-applied formula
would give 1.7 — so the ease factor is not recomputed on every transition. -/
theorem ease_factor_not_always_recomputed :
    (update_progress progressExample 0 0).1.ease_factor = 2.5 ∧
    max (1.3 : ℚ)
      (2.5 + (0.1 - (5 - (0 : ℚ)) * (0.08 + (5 - (0 : ℚ)) * 0.02))) = 1.7 ∧
    (2.5 : ℚ) ≠ 1.7 := by
  refine ⟨?_, by norm_num, by norm_num⟩
  norm_num [update_progress, progressExample]

/-- C2 (amended): the ease factor is recomputed as
`max(1.3, ef + (0.1 − (5 − q)·(0.08 + (5 − q)·0.02)))` exactly when
`quality ≥ 3`; for `quality < 3` it is left unchanged. -/
theorem update_progress_ease_factor_rule (p : UserProgress) (quality : Int)
    (now : Timestamp) :
    (update_progress p quality now).1.ease_factor =
      if 3 ≤ quality then
        max 1.3 (p.ease_factor +
          (0.1 - (5 - (quality : ℚ)) * (0.08 + (5 - (quality : ℚ)) * 0.02)))
      else p.ease_factor :=
  update_progress_easeFactor p quality now

/-- C3 counterexample: from the fresh default state (ease factor 2.5), the
transition at quality 3 yields ease factor 2.36 while quality 2 yields 2.5,
so the post-transition ease factor is not monotonically non-decreasing in
quality over [0,5]. -/
theorem ease_factor_not_monotone_in_quality :
    (update_progress progressExample 3 0).1.ease_factor <
      (update_progress progressExample 2 0).1.ease_factor := by
  norm_num [update_progress, progressExample]

/-- C3 (amended): for every prior state with `easeFactor ≥ 1.3`, the
post-transition ease factor never drops below 1.3 for any quality in
[0,5]; it is monotonically non-decreasing in quality only over the
correct-answer range [3,5] (for quality below 3 it equals the prior value,
which can exceed the value at quality 3). -/
theorem update_progress_ease_factor_bounds (p : UserProgress)
    (now : Timestamp) (hE : (1.3 : ℚ) ≤ p.ease_factor) :
    (∀ quality : Int, 0 ≤ quality → quality ≤ 5 →
      (1.3 : ℚ) ≤ (update_progress p quality now).1.ease_factor) ∧
    (∀ q₁ q₂ : Int, 3 ≤ q₁ → q₁ ≤ q₂ → q₂ ≤ 5 →
      (update_progress p q₁ now).1.ease_factor ≤
        (update_progress p q₂ now).1.ease_factor) := by
  constructor
  · intro quality _ _
    rw [update_progress_easeFactor]
    by_cases h : 3 ≤ quality
    · simp [h, le_max_left]
    · simpa [h] using hE
  · intro q₁ q₂ h₁ h₁₂ h₂
    rw [update_progress_easeFactor, update_progress_easeFactor]
    have h₁' : 3 ≤ q₂ := by omega
    simp only [h₁, h₁', if_pos]
    have hc : ((q₁ : ℚ)) ≤ (q₂ : ℚ) := by exact_mod_cast h₁₂
    have hc5 : ((q₂ : ℚ)) ≤ 5 := by exact_mod_cast h₂
    refine max_le_max le_rfl (add_le_add_left ?_ p.ease_factor)
    nlinarith [hc, hc5]

/-- Witness for C3 (amended) at the default fresh state:
the lower bound at quality 5 and monotonicity between qualities 3 and 4. -/
theorem update_progress_ease_factor_bounds_witness :
    ((1.3 : ℚ) ≤ (update_progress progressExample 5 0).1.ease_factor) ∧
    ((update_progress progressExample 3 0).1.ease_factor ≤
      (update_progress progressExample 4 0).1.ease_factor) :=
  ⟨(update_progress_ease_factor_bounds progressExample 0
      (by norm_num [progressExample])).1 5 (by norm_num) (by norm_num),
   (update_progress_ease_factor_bounds progressExample 0
      (by norm_num [progressExample])).2 3 4 (by norm_num) (by norm_num)
      (by norm_num)⟩

/-- C4: every transition emits exactly one `StudySessionCompleted` event —
carrying the user id, word id, quality, and the post-transition repetitions
and ease factor — followed by a `WordLearned` event exactly when the
post-transition repetitions equal 1 and the quality is at least 3; no other
events are emitted. -/
theorem update_progress_events (p : UserProgress) (quality : Int)
    (now : Timestamp) :
    (update_progress p quality now).2 =
      DomainEvent.studySessionCompleted p.user_id p.word_id quality
          (update_progress p quality now).1.repetitions
          (update_progress p quality now).1.ease_factor ::
        (if (update_progress p quality now).1.repetitions = 1 ∧ 3 ≤ quality
         then [DomainEvent.wordLearned p.user_id p.word_id] else []) ∧
    (DomainEvent.wordLearned p.user_id p.word_id ∈
        (update_progress p quality now).2 ↔
      (update_progress p quality now).1.repetitions = 1 ∧ 3 ≤ quality) := by
  have heq : (update_progress p quality now).2 =
      DomainEvent.studySessionCompleted p.user_id p.word_id quality
          (update_progress p quality now).1.repetitions
          (update_progress p quality now).1.ease_factor ::
        (if (update_progress p quality now).1.repetitions = 1 ∧ 3 ≤ quality
         then [DomainEvent.wordLearned p.user_id p.word_id] else []) := by
    simp only [update_progress]
    split_ifs <;> simp_all
  refine ⟨heq, ?_⟩
  rw [heq]
  by_cases hc : (update_progress p quality now).1.repetitions = 1 ∧ 3 ≤ quality
  · simp [hc]
  · simp [hc]

/-- C10: an incorrect answer (`quality < 3`) leaves the ease factor exactly
unchanged, and no transition ever modifies the entity's `id`, `user_id`, or
`word_id`. -/
theorem update_progress_frame (p : UserProgress) (quality : Int)
    (now : Timestamp) :
    (quality < 3 →
      (update_progress p quality now).1.ease_factor = p.ease_factor) ∧
    (update_progress p quality now).1.id = p.id ∧
    (update_progress p quality now).1.user_id = p.user_id ∧
    (update_progress p quality now).1.word_id = p.word_id := by
  refine ⟨fun h => ?_, ?_, ?_, ?_⟩
  · rw [update_progress_easeFactor]
    simp [show ¬ 3 ≤ quality by omega]
  all_goals simp only [update_progress]; split_ifs <;> rfl

/-- Witness for C10 at the default fresh state and quality 1. -/
theorem update_progress_frame_witness :
    (update_progress progressExample 1 0).1.ease_factor =
      progressExample.ease_factor ∧
    (update_progress progressExample 1 0).1.id = progressExample.id ∧
    (update_progress progressExample 1 0).1.user_id =
      progressExample.user_id ∧
    (update_progress progressExample 1 0).1.word_id =
      progressExample.word_id :=
  ⟨(update_progress_frame progressExample 1 0).1 (by norm_num),
   (update_progress_frame progressExample 1 0).2.1,
   (update_progress_frame progressExample 1 0).2.2.1,
   (update_progress_frame progressExample 1 0).2.2.2⟩

/-! ## Claims about study-block assembly -/

/-- A sample word with id 1. -/
def wordExample : Word :=
  { id := some 1, word := "hola", frequency_rank := 1, difficulty_level := 1 }

/-- A second sample word with id 2. -/
def wordExample2 : Word :=
  { id := some 2, word := "mundo", frequency_rank := 2, difficulty_level := 1 }

/-- C5 counterexample: when the due list and the new-words list both
contain the word with id 1 and the limit is 2, the assembled block is that
word twice — the assembler performs no deduplication by item id. -/
theorem study_block_no_dedup :
    generateStudyBlock "user123" [wordExample] [wordExample] 2 =
      .ok [wordExample, wordExample] ∧
    ¬ ([wordExample, wordExample].map Word.id).Nodup := by
  constructor
  · rfl
  · simp

/-- C5 (amended): the study block is the due words followed by the new
words the repositories returned, truncated to at most `limit` elements —
so every due item precedes every new item and the block never exceeds
`limit` — but no deduplication is applied: an item id repeats in the block
exactly when the combined repository lists repeat it. -/
theorem assembleBlock_concat_truncate (due newWords : List Word)
    (limit : Nat) :
    assembleBlock due newWords limit = (due ++ newWords).take limit ∧
    (assembleBlock due newWords limit).length ≤ limit := by
  have heq : assembleBlock due newWords limit =
      (due ++ newWords).take limit := by
    unfold assembleBlock
    by_cases h : due.length < limit
    · simp [h]
    · have hle : limit ≤ due.length := by omega
      simp [h, List.take_append_of_le_length hle]
  exact ⟨heq, heq ▸ List.length_take_le limit (due ++ newWords)⟩

/-! ## Claims about the due-for-review query -/

/-- A join row for word 1 whose review came due at time 10. -/
def rowLate : ReviewRow :=
  { word := wordExample,
    progress := { id := some 10, user_id := "user123", word_id := 1,
                  next_review := some 10 } }

/-- A join row for word 2 whose review came due earlier, at time 5. -/
def rowEarly : ReviewRow :=
  { word := wordExample2,
    progress := { id := some 11, user_id := "user123", word_id := 2,
                  next_review := some 5 } }

/-- C6 counterexample: with the later-due row stored before the
earlier-due row, the query returns the words in row order
(word 1 before word 2) while the claimed due-date-ascending order would
return word 2 first — the query applies no ordering. -/
theorem find_words_due_not_ordered :
    find_words_due_for_review [rowLate, rowEarly] "user123" 10 20 =
      [wordExample, wordExample2] ∧
    find_words_due_for_review_spec [rowLate, rowEarly] "user123" 10 20 =
      [wordExample2, wordExample] ∧
    ([wordExample, wordExample2] : List Word) ≠
      [wordExample2, wordExample] := by
  refine ⟨rfl, rfl, ?_⟩
  simp [wordExample, wordExample2]

/-- C6 (amended): the due-for-review query returns at most `limit` words,
preserves the underlying row order (its result is a sublist of the joined
rows' words, with no reordering by due date or item id), and returns only
words whose row matches the user and has a non-null `next_review ≤ now`. -/
theorem find_words_due_filter_limit (db : List ReviewRow) (user_id : String)
    (limit : Nat) (now : Timestamp) :
    (find_words_due_for_review db user_id limit now).length ≤ limit ∧
    List.Sublist (find_words_due_for_review db user_id limit now)
      (db.map fun r => r.word) ∧
    (∀ w ∈ find_words_due_for_review db user_id limit now,
      ∃ r ∈ db, r.word = w ∧ r.progress.user_id = user_id ∧
        nextReviewLe r.progress.next_review now = true) := by
  refine ⟨?_, ?_, ?_⟩
  · simp only [find_words_due_for_review, List.length_map]
    exact List.length_take_le limit _
  · unfold find_words_due_for_review
    exact ((List.take_sublist limit _).trans (List.filter_sublist db)).map
      fun r => r.word
  · intro w hw
    simp only [find_words_due_for_review, List.mem_map] at hw
    obtain ⟨r, hr, hrw⟩ := hw
    have hr' := List.mem_of_mem_take hr
    rw [List.mem_filter] at hr'
    obtain ⟨hmem, hpred⟩ := hr'
    rw [Bool.and_eq_true, beq_iff_eq] at hpred
    exact ⟨r, hmem, hrw, hpred.1, hpred.2⟩

/-- Witness for C6 (amended) on the two-row database. -/
theorem find_words_due_filter_limit_witness :
    (find_words_due_for_review [rowLate, rowEarly] "user123" 10 20).length ≤
      10 ∧
    (∃ r ∈ [rowLate, rowEarly], r.word = wordExample ∧
      r.progress.user_id = "user123" ∧
      nextReviewLe r.progress.next_review 20 = true) :=
  ⟨(find_words_due_filter_limit [rowLate, rowEarly] "user123" 10 20).1,
   (find_words_due_filter_limit [rowLate, rowEarly] "user123" 10 20).2.2
     wordExample (by rw [show find_words_due_for_review
       [rowLate, rowEarly] "user123" 10 20 =
         [wordExample, wordExample2] from rfl]; simp)⟩

/-- C7: `GenerateStudyBlock` fails with `NoWordsAvailable(user_id)` exactly
when the assembled, truncated block is empty — that is, when `limit = 0` or
both repository lists are empty. -/
theorem generateStudyBlock_error_iff (user_id : String)
    (due newWords : List Word) (limit : Nat) :
    generateStudyBlock user_id due newWords limit =
        .error (.noWordsAvailable user_id) ↔
      (limit = 0 ∨ (due = [] ∧ newWords = [])) := by
  have hnil : assembleBlock due newWords limit = [] ↔
      (limit = 0 ∨ (due = [] ∧ newWords = [])) := by
    unfold assembleBlock
    by_cases h : due.length < limit
    · simp only [h, if_true, List.take_eq_nil_iff, List.append_eq_nil]
    · simp only [h, if_false, List.take_eq_nil_iff]
      constructor
      · rintro (h0 | hdue)
        · exact Or.inl h0
        · subst hdue
          simp only [List.length_nil] at h
          exact Or.inl (by omega)
      · rintro (h0 | ⟨hdue, _⟩)
        · exact Or.inl h0
        · exact Or.inr hdue
  unfold generateStudyBlock
  by_cases he : (assembleBlock due newWords limit).isEmpty
  · rw [List.isEmpty_iff] at he
    simp [he, hnil.mp he, List.isEmpty_iff]
  · rw [Bool.not_eq_true, ← Bool.not_eq_true, List.isEmpty_iff] at he
    simp only [List.isEmpty_iff, he, if_false]
    constructor
    · intro hcontr
      exact absurd hcontr (by simp)
    · intro hr
      exact absurd (hnil.mpr hr) he

/-! ## Claims about the CQRS mediator -/

/-- C8: registration overwrites silently (the most recent handler for a
type wins, other types are untouched); submitting a request whose runtime
type has a registered handler invokes exactly that handler exactly once
with the submitted instance and returns its result unchanged; submitting a
request with no registered handler fails with `unregisteredHandler` naming
the request type and invokes no handler — on the command side and the
query side alike. -/
theorem mediator_dispatch {κ Cmd Qry Res : Type} [DecidableEq κ]
    (m : CQRSMediator κ Cmd Qry Res) :
    (∀ (k : κ) (h₁ h₂ : Cmd → Res),
      ((m.register_command_handler k h₁).register_command_handler
        k h₂).command_handlers k = some h₂) ∧
    (∀ (k k' : κ) (h : Cmd → Res), k' ≠ k →
      (m.register_command_handler k h).command_handlers k' =
        m.command_handlers k') ∧
    (∀ (typeOf : Cmd → κ) (c : Cmd) (h : Cmd → Res),
      m.command_handlers (typeOf c) = some h →
      m.send_command typeOf c = (.ok (h c), [c])) ∧
    (∀ (typeOf : Cmd → κ) (c : Cmd),
      m.command_handlers (typeOf c) = none →
      m.send_command typeOf c =
        (.error (.unregisteredHandler (typeOf c)), [])) ∧
    (∀ (k : κ) (h₁ h₂ : Qry → Res),
      ((m.register_query_handler k h₁).register_query_handler
        k h₂).query_handlers k = some h₂) ∧
    (∀ (k k' : κ) (h : Qry → Res), k' ≠ k →
      (m.register_query_handler k h).query_handlers k' =
        m.query_handlers k') ∧
    (∀ (typeOf : Qry → κ) (q : Qry) (h : Qry → Res),
      m.query_handlers (typeOf q) = some h →
      m.send_query typeOf q = (.ok (h q), [q])) ∧
    (∀ (typeOf : Qry → κ) (q : Qry),
      m.query_handlers (typeOf q) = none →
      m.send_query typeOf q =
        (.error (.unregisteredHandler (typeOf q)), [])) := by
  refine ⟨?_, ?_, ?_, ?_, ?_, ?_, ?_, ?_⟩
  · intro k h₁ h₂
    simp [CQRSMediator.register_command_handler]
  · intro k k' h hne
    simp [CQRSMediator.register_command_handler, hne]
  · intro typeOf c h hsome
    simp [CQRSMediator.send_command, hsome]
  · intro typeOf c hnone
    simp [CQRSMediator.send_command, hnone]
  · intro k h₁ h₂
    simp [CQRSMediator.register_query_handler]
  · intro k k' h hne
    simp [CQRSMediator.register_query_handler, hne]
  · intro typeOf q h hsome
    simp [CQRSMediator.send_query, hsome]
  · intro typeOf q hnone
    simp [CQRSMediator.send_query, hnone]

/-- Witness for C8 over ℕ-typed requests and the empty mediator:
double registration resolves to the second handler, dispatch of a
registered command invokes it once on the instance, and dispatch on the
empty mediator fails without invoking anything. -/
theorem mediator_dispatch_witness :
    (((CQRSMediator.empty Nat Nat Nat Nat).register_command_handler 0
        (fun n => n + 1)).register_command_handler 0
        (fun n => n + 2)).command_handlers 0 = some (fun n => n + 2) ∧
    ((CQRSMediator.empty Nat Nat Nat Nat).register_command_handler 0
        (fun n => n + 1)).command_handlers 1 =
      (CQRSMediator.empty Nat Nat Nat Nat).command_handlers 1 ∧
    ((CQRSMediator.empty Nat Nat Nat Nat).register_command_handler 0
        (fun n => n + 1)).send_command id 0 = (.ok 1, [0]) ∧
    (CQRSMediator.empty Nat Nat Nat Nat).send_query id 0 =
      (.error (.unregisteredHandler 0), []) :=
  ⟨(mediator_dispatch (CQRSMediator.empty Nat Nat Nat Nat)).1 0
      (fun n => n + 1) (fun n => n + 2),
   (mediator_dispatch (CQRSMediator.empty Nat Nat Nat Nat)).2.1 0 1
      (fun n => n + 1) (by decide),
   (mediator_dispatch ((CQRSMediator.empty Nat Nat Nat
      Nat).register_command_handler 0 (fun n => n + 1))).2.2.1 id 0
      (fun n => n + 1) rfl,
   (mediator_dispatch (CQRSMediator.empty Nat Nat Nat Nat)).2.2.2.2.2.2.2
      id 0 rfl⟩

/-! ## Claims about the submit-answer handler -/

/-- A repository state holding only the word with id 1 and no progress or
session rows. -/
def repoExample : RepositoryState :=
  { words := [wordExample], progresses := [], sessions := [] }

/-- C9: `SubmitAnswer` fails with `invalidQuality` when the quality is
outside [0,5]; with `invalidResponseTime` when the quality is in range but
the response time is negative; with `wordNotFound` when both are valid but
no word with the given id exists — the checks in that order, before the
transition — and whenever any error is raised, the repositories are left
exactly as they were (no progress row created or updated, no session
appended). -/
theorem submitAnswer_validation (st : RepositoryState)
    (sd : StudySessionDto) (now : Timestamp) :
    (sd.quality < 0 ∨ 5 < sd.quality →
      submitAnswerHandler st sd now = .error (.invalidQuality sd.quality)) ∧
    (0 ≤ sd.quality → sd.quality ≤ 5 → sd.response_time < 0 →
      submitAnswerHandler st sd now =
        .error (.invalidResponseTime sd.response_time)) ∧
    (0 ≤ sd.quality → sd.quality ≤ 5 → 0 ≤ sd.response_time →
      find_by_id st.words sd.word_id = none →
      submitAnswerHandler st sd now = .error (.wordNotFound sd.word_id)) ∧
    (∀ e, submitAnswerHandler st sd now = .error e →
      runSubmitAnswer st sd now = st) := by
  refine ⟨?_, ?_, ?_, ?_⟩
  · intro h
    simp [submitAnswerHandler, h]
  · intro h0 h5 hrt
    have hq : ¬ (sd.quality < 0 ∨ 5 < sd.quality) := by omega
    simp [submitAnswerHandler, hq, hrt]
  · intro h0 h5 hrt hfind
    have hq : ¬ (sd.quality < 0 ∨ 5 < sd.quality) := by omega
    have hr : ¬ sd.response_time < 0 := not_lt.mpr hrt
    simp [submitAnswerHandler, hq, hr, hfind]
  · intro e he
    simp [runSubmitAnswer, he]

/-- Witness for C9: each of the three validation failures at a concrete
request against the one-word repository, and the unchanged state after the
invalid-quality failure. -/
theorem submitAnswer_validation_witness :
    submitAnswerHandler repoExample
      { user_id := "user123", word_id := 1, quality := -1,
        response_time := 1 } 0 = .error (.invalidQuality (-1)) ∧
    submitAnswerHandler repoExample
      { user_id := "user123", word_id := 1, quality := 3,
        response_time := -1 } 0 = .error (.invalidResponseTime (-1)) ∧
    submitAnswerHandler repoExample
      { user_id := "user123", word_id := 2, quality := 3,
        response_time := 1 } 0 = .error (.wordNotFound 2) ∧
    runSubmitAnswer repoExample
      { user_id := "user123", word_id := 1, quality := -1,
        response_time := 1 } 0 = repoExample :=
  ⟨(submitAnswer_validation repoExample
      { user_id := "user123", word_id := 1, quality := -1,
        response_time := 1 } 0).1 (by norm_num),
   (submitAnswer_validation repoExample
      { user_id := "user123", word_id := 1, quality := 3,
        response_time := -1 } 0).2.1 (by norm_num) (by norm_num)
      (by norm_num),
   (submitAnswer_validation repoExample
      { user_id := "user123", word_id := 2, quality := 3,
        response_time := 1 } 0).2.2.1 (by norm_num) (by norm_num)
      (by norm_num) rfl,
   (submitAnswer_validation repoExample
      { user_id := "user123", word_id := 1, quality := -1,
        response_time := 1 } 0).2.2.2 (.invalidQuality (-1))
      ((submitAnswer_validation repoExample
        { user_id := "user123", word_id := 1, quality := -1,
          response_time := 1 } 0).1 (by norm_num))⟩

end SpacedRepetition
